import Mathlib

/-!
Verification development for the beer-garden Garden Federation Reconciliation
& Routing Engine (`src/app/beer_garden/garden.py` together with the schemas in
`src/app/beer_garden/db/schemas/garden_schema.py`).

The Python code is shallowly embedded: JSON-like parameter dictionaries become
association lists over an inductive `Value` type, the marshmallow schemas
become decidable validity predicates, `datetime.utcnow()` becomes an explicit
`now : Nat` parameter, and the uncaught `TypeError` that
`_clean_or_default_http_connection_params` can raise (merging a non-mapping
over the defaults dict) is modelled by an `Option` result, `none` standing for
the raised exception.
-/

set_option autoImplicit false

namespace BeerGarden

/-- A JSON-like value as stored in a garden's `connection_params` mapping. -/
inductive Value where
  | vStr (s : String)
  | vInt (n : Int)
  | vBool (b : Bool)
  | vNull
  | vDict (entries : List (String × Value))
  | vList (items : List Value)

/-- Python `d.get(k, None)`: first entry with the given key (dict keys are unique). -/
def dget : List (String × Value) → String → Option Value
  | [], _ => none
  | (k', v) :: rest, k => if k' = k then some v else dget rest k

/-- Python `d[k] = v`: replace the value of an existing key in place, else append. -/
def dset : List (String × Value) → String → Value → List (String × Value)
  | [], k, v => [(k, v)]
  | (k', v') :: rest, k, v =>
    if k' = k then (k, v) :: rest else (k', v') :: dset rest k v

/-- Python `d.pop(k, None)` (effect on the dict): drop the entry with the given key. -/
def dpop : List (String × Value) → String → List (String × Value)
  | [], _ => []
  | (k', v') :: rest, k => if k' = k then rest else (k', v') :: dpop rest k

/-- Python `{**a, **b}`: entries of `b` override or extend those of `a`. -/
def dictMerge (a b : List (String × Value)) : List (String × Value) :=
  b.foldl (fun acc kv => dset acc kv.fst kv.snd) a

/-- Python `v == {}` for the values produced by the cleaning helpers. -/
def isEmptyDict : Value → Bool
  | .vDict [] => true
  | _ => false

/-- Closed-schema check of `GardenBaseSchema.validate_all_keys`: no extraneous keys. -/
def keysSubset (d : List (String × Value)) (allowed : List String) : Bool :=
  d.all fun kv => allowed.contains kv.fst

/-- A required `fields.String` value. -/
def isReqStr : Option Value → Bool
  | some (.vStr _) => true
  | _ => false

/-- A required `fields.Integer` with `_port_validator` (`0 < value < 65535`). -/
def isReqPort : Option Value → Bool
  | some (.vInt n) => decide (0 < n) && decide (n < 65535)
  | _ => false

/-- A required `fields.Boolean` value. -/
def isReqBool : Option Value → Bool
  | some (.vBool _) => true
  | _ => false

/-- An optional `fields.String(required=False, allow_none=True)` value. -/
def isOptStr : Option Value → Bool
  | none => true
  | some (.vStr _) => true
  | some .vNull => true
  | _ => false

def httpAllowedKeys : List String :=
  ["host", "port", "url_prefix", "ca_cert", "ca_verify", "client_cert", "client_key", "ssl"]

/-- Field-by-field validity of `HttpConnectionParamsSchema` (closed schema).
`url_prefix` is effectively required: the schema passes marshmallow-3 style
`load_default`/`dump_default` keywords that the marshmallow 2 runtime treats as
metadata, so no default is filled in (the repository's own tests list
`url_prefix` among `MANDATORY_HTTP_FIELDS`).  `ca_verify` and `ssl` are
`required=True`, and under marshmallow 2 the required check precedes the
`missing` fill, so they must be present. -/
def httpParamsValid (d : List (String × Value)) : Bool :=
  keysSubset d httpAllowedKeys &&
  isReqStr (dget d "host") &&
  isReqPort (dget d "port") &&
  isReqStr (dget d "url_prefix") &&
  isOptStr (dget d "ca_cert") &&
  isReqBool (dget d "ca_verify") &&
  isOptStr (dget d "client_cert") &&
  isOptStr (dget d "client_key") &&
  isReqBool (dget d "ssl")

/-- `StompSSLParamsSchema`: a nested dict with exactly a required boolean `use_ssl`. -/
def stompSslValid : Option Value → Bool
  | some (.vDict d) => keysSubset d ["use_ssl"] && isReqBool (dget d "use_ssl")
  | _ => false

/-- `StompHeaderSchema`: a dict with required string `key` and `value` only. -/
def stompHeaderValid : Value → Bool
  | .vDict d => keysSubset d ["key", "value"] && isReqStr (dget d "key") && isReqStr (dget d "value")
  | _ => false

/-- The optional `headers` field: a list of valid header dicts when present. -/
def stompHeadersValid : Option Value → Bool
  | none => true
  | some (.vList items) => items.all stompHeaderValid
  | _ => false

def stompAllowedKeys : List String :=
  ["ssl", "headers", "host", "port", "send_destination", "subscribe_destination",
   "username", "password"]

/-- Field-by-field validity of `StompConnectionParamsSchema` (closed schema). -/
def stompParamsValid (d : List (String × Value)) : Bool :=
  keysSubset d stompAllowedKeys &&
  stompSslValid (dget d "ssl") &&
  stompHeadersValid (dget d "headers") &&
  isReqStr (dget d "host") &&
  isReqPort (dget d "port") &&
  isOptStr (dget d "send_destination") &&
  isOptStr (dget d "subscribe_destination") &&
  isOptStr (dget d "username") &&
  isOptStr (dget d "password")

/-- `_validate_http_connection_params`: a strict marshmallow load.  Under
marshmallow 2 a valid load of exactly-typed data returns the input mapping
unchanged; an invalid load raises, modelled as `none`. -/
def validateHttpConnectionParams (v : Value) : Option Value :=
  match v with
  | .vDict d => if httpParamsValid d then some (.vDict d) else none
  | _ => none

/-- `_validate_stomp_connection_params`, same conventions. -/
def validateStompConnectionParams (v : Value) : Option Value :=
  match v with
  | .vDict d => if stompParamsValid d then some (.vDict d) else none
  | _ => none

/-- A brewtils `System` reference as far as the garden service touches it:
`handle_event` only writes its `local` attribute (here `isLocal`). -/
structure GSystem where
  sysName : String
  isLocal : Bool
  deriving DecidableEq, Repr

/-- The garden's `status_info` mapping; the service only ever touches its
`heartbeat` key, set from `datetime.utcnow()` (modelled as a `Nat`). -/
structure StatusInfo where
  heartbeat : Option Nat
  deriving DecidableEq, Repr

/-- A brewtils `Garden` record.  `connection_params` is the top-level mapping
with the optional `http` / `stomp` keys; a Python `None` connection params
value is modelled as the empty mapping, which the source normalizes to with
`... or {}` before any use. -/
structure Garden where
  name : String
  connection_type : Option String
  connection_params : List (String × Value)
  status : String
  status_info : StatusInfo
  namespaces : List String
  systems : List GSystem

/-- `_create_basic_connection_defaults`, entry by entry.  `host` becomes
`"child_hostname"` because the source loads the brewtils connection spec with
`bg_host = ""` and substitutes the sensible default for empty strings; `port`
is brewtils' default `bg_port` (2337); `ssl` and `ca_verify` are forced to
`False`; `url_prefix` is brewtils' default `"/"`; the certificate entries stay
the empty string. -/
def basicConnectionDefaultsEntries : List (String × Value) :=
  [("host", .vStr "child_hostname"), ("port", .vInt 2337), ("ssl", .vBool false),
   ("url_prefix", .vStr "/"), ("ca_cert", .vStr ""), ("ca_verify", .vBool false),
   ("client_cert", .vStr "")]

def basicConnectionDefaults : Value := .vDict basicConnectionDefaultsEntries

/-- `_clean_or_default_http_connection_params`.  Result `none` models the
uncaught `TypeError` raised by `{**defaults, **params}` when `params` is
present, fails validation and is not a mapping. -/
def cleanOrDefaultHttpConnectionParams (params : Option Value) (gardenName : String) :
    Option (Value × List String) :=
  match params with
  | none => some (basicConnectionDefaults,
      ["Used defaults for all values of http connection params for garden " ++ gardenName])
  | some p =>
    match validateHttpConnectionParams p with
    | some q => some (q, [])
    | none =>
      match p with
      | .vDict d =>
        match validateHttpConnectionParams (.vDict (dictMerge basicConnectionDefaultsEntries d)) with
        | some q => some (q,
            ["Used defaults for some values of http connection params for garden " ++ gardenName])
        | none => some (basicConnectionDefaults,
            ["Used defaults for all values of http connection params for garden " ++ gardenName])
      | _ => none

/-- `_clean_or_empty_http_connection_params`. -/
def cleanOrEmptyHttpConnectionParams (params : Option Value) (gardenName : String) :
    Value × List String :=
  match params with
  | none => (.vDict [], [])
  | some p =>
    match validateHttpConnectionParams p with
    | some q => (q, [])
    | none => (.vDict [], ["Unable to parse http connection params for garden " ++ gardenName])

/-- `_clean_or_empty_stomp_connection_params`. -/
def cleanOrEmptyStompConnectionParams (params : Option Value) (gardenName : String) :
    Value × List String :=
  match params with
  | none => (.vDict [], ["No stomp connection params provided for garden " ++ gardenName])
  | some p =>
    match validateStompConnectionParams p with
    | some q => (q, [])
    | none => (.vDict [], ["Unable to parse stomp connection params for garden " ++ gardenName])

/-- The core of `clean_garden_connection_params`: the function only ever reads
the garden's `name`, `connection_type` and `connection_params` and only ever
writes the latter two, so it is factored over that triple.  The note list
collects every string the source hands to `logger.debug`, in source order
(`messages + http_msgs + stomp_msgs`, plus the direct debug call in the LOCAL
branch).  Result `none` models the uncaught `TypeError` described at
`cleanOrDefaultHttpConnectionParams`. -/
def cleanConnectionFields (gardenName : String) (connectionType : Option String)
    (connParams : List (String × Value)) :
    Option (Option String × List (String × Value) × List String) :=
  if connectionType = some "LOCAL" then
    if connParams.isEmpty then some (connectionType, connParams, [])
    else some (connectionType, [], ["Removed connection params for local garden"])
  else
    let stompRes := cleanOrEmptyStompConnectionParams (dget connParams "stomp") gardenName
    let newStompParams := stompRes.1
    let stompMsgs := stompRes.2
    if connectionType = some "HTTP" then
      match cleanOrDefaultHttpConnectionParams (dget connParams "http") gardenName with
      | none => none
      | some (newHttpParams, httpMsgs) =>
        let cp1 := dset connParams "http" newHttpParams
        if !isEmptyDict newStompParams then
          some (connectionType, dset cp1 "stomp" newStompParams, httpMsgs ++ stompMsgs)
        else
          -- `old_stomp = conn_params.pop("stomp", None)`: the removal note fires
          -- only when the popped value exists and is not the literal `None`.
          let messages :=
            match dget cp1 "stomp" with
            | none => []
            | some .vNull => []
            | some _ =>
              ["Removed unparseable stomp connnection params from garden " ++ gardenName]
          some (connectionType, dpop cp1 "stomp", messages ++ httpMsgs ++ stompMsgs)
    else
      -- any other declared type ("STOMP", None, anything else) takes this branch
      if (dget connParams "stomp").isNone || isEmptyDict newStompParams then
        match cleanOrDefaultHttpConnectionParams (dget connParams "http") gardenName with
        | none => none
        | some (newHttpParams, httpMsgs) =>
          some (some "HTTP", dpop (dset connParams "http" newHttpParams) "stomp",
            ("Forcing connection type to HTTP for garden " ++ gardenName) ::
              (httpMsgs ++ stompMsgs))
      else
        let cp1 := dset connParams "stomp" newStompParams
        let httpRes := cleanOrEmptyHttpConnectionParams (dget cp1 "http") gardenName
        let newHttpParams := httpRes.1
        let httpMsgs := httpRes.2
        if (dget cp1 "http").isSome && isEmptyDict newHttpParams then
          some (connectionType, dpop cp1 "http",
            ("Removed unparseable http configuration params from garden " ++ gardenName) ::
              (httpMsgs ++ stompMsgs))
        else if !isEmptyDict newHttpParams then
          some (connectionType, dset cp1 "http" newHttpParams, httpMsgs ++ stompMsgs)
        else
          some (connectionType, cp1, httpMsgs ++ stompMsgs)

/-- The garden returned by `clean_garden_connection_params` together with the
remediation notes it logged. -/
structure CleanResult where
  garden : Garden
  notes : List String

/-- `clean_garden_connection_params` on a non-`None` garden. -/
def cleanGardenConnectionParams (garden : Garden) : Option CleanResult :=
  (cleanConnectionFields garden.name garden.connection_type garden.connection_params).map
    fun r => ⟨{ garden with connection_type := r.1, connection_params := r.2.1 }, r.2.2⟩

/-- `create_garden`: clean the connection params, stamp
`status_info["heartbeat"] = datetime.utcnow()`, persist.  The persisted garden
is returned (the GARDEN_CREATED publication carries it unchanged). -/
def createGarden (now : Nat) (garden : Garden) : Option Garden :=
  (cleanGardenConnectionParams garden).map fun r =>
    { r.garden with status_info := ⟨some now⟩ }

/-- `update_garden`: `db.update(clean_garden_connection_params(garden))`. -/
def updateGarden (garden : Garden) : Option Garden :=
  (cleanGardenConnectionParams garden).map CleanResult.garden

/-- `update_garden_status` applied to the record fetched by name: set the new
status, refresh the heartbeat, persist through `update_garden`. -/
def updateGardenStatus (stored : Garden) (now : Nat) (newStatus : String) : Option Garden :=
  updateGarden { stored with status := newStatus, status_info := ⟨some now⟩ }

/-- `update_garden_config` applied to the record fetched by id: copy the
connection fields from the caller-supplied garden, force the status to
INITIALIZING, persist through `update_garden`.  It never touches
`status_info`. -/
def updateGardenConfig (stored : Garden) (garden : Garden) : Option Garden :=
  updateGarden { stored with
    connection_params := garden.connection_params,
    connection_type := garden.connection_type,
    status := "INITIALIZING" }

/-- An inbound federation lifecycle event: `name`, originating `garden` and a
garden snapshot `payload`. -/
structure Event where
  name : String
  garden : String
  payload : Garden

/-- An event handed to `publish` by `handle_event` (one SYSTEM_UPDATED per
system of the written garden). -/
structure PublishedEvent where
  name : String
  garden : String
  payload_type : String
  payloadSystem : GSystem

/-- `for system in event.payload.systems: system.local = False`. -/
def markSystemsNonlocal (systems : List GSystem) : List GSystem :=
  systems.map fun s => { s with isLocal := false }

def gardenLifecycleEventNames : List String :=
  ["GARDEN_STARTED", "GARDEN_UPDATED", "GARDEN_STOPPED", "GARDEN_SYNC"]

/-- The lifecycle half of `handle_event` (`event.garden != config garden.name`,
event name among the four GARDEN_* lifecycle events).  `stored` is the raw
database record for `event.payload.name` if one exists; `get_garden` cleans it
on read.  The result is the persisted garden together with the published
SYSTEM_UPDATED events; `none` covers events the handler ignores (wrong origin,
name, or relayed grandchild reports) as well as the cleaning exception. -/
def handleLifecycleEvent (localName : String) (now : Nat) (event : Event)
    (stored : Option Garden) : Option (Garden × List PublishedEvent) :=
  if event.garden ≠ localName ∧ event.name ∈ gardenLifecycleEventNames ∧
      event.payload.name = event.garden then
    let payload := { event.payload with systems := markSystemsNonlocal event.payload.systems }
    let written : Option Garden :=
      match stored with
      | none =>
        createGarden now { payload with connection_type := none, connection_params := [] }
      | some storedRec =>
        match (cleanGardenConnectionParams storedRec).map CleanResult.garden with
        | none => none
        | some existing =>
          updateGarden { existing with
            status := payload.status, status_info := payload.status_info,
            namespaces := payload.namespaces, systems := payload.systems }
    written.map fun garden =>
      (garden, garden.systems.map fun s =>
        ⟨"SYSTEM_UPDATED", event.garden, "System", s⟩)
  else none

def distressStatuses : List String := ["UNREACHABLE", "STOPPED", "BLOCKED", "ERROR"]

/-- The remote-status half of `handle_event` (`event.garden` equal to the local
garden name, event named GARDEN_UNREACHABLE / GARDEN_ERROR /
GARDEN_NOT_CONFIGURED).  `stored` is the target garden's record; the status
read guarding the transition goes through `get_garden`, which does not alter
the status.  The result is the record after the handler ran (`some stored`
when no transition fires and the record is left alone). -/
def handleStatusEvent (now : Nat) (eventName : String) (stored : Garden) : Option Garden :=
  if eventName = "GARDEN_UNREACHABLE" then
    if stored.status ∉ distressStatuses then updateGardenStatus stored now "UNREACHABLE"
    else some stored
  else if eventName = "GARDEN_ERROR" then
    if stored.status ∉ distressStatuses then updateGardenStatus stored now "ERROR"
    else some stored
  else if eventName = "GARDEN_NOT_CONFIGURED" then
    if stored.status = "NOT_CONFIGURED" then updateGardenStatus stored now "NOT_CONFIGURED"
    else some stored
  else some stored

/-- A routed brewtils `Operation`; `syncTarget` is the `sync_target` entry of
its `kwargs`. -/
structure Operation where
  operation_type : String
  target_garden_name : String
  syncTarget : Option String
  deriving DecidableEq, Repr

/-- `list(map(clean_garden_connection_params, ...))`: clean each garden in
order; a cleaning exception aborts the whole call. -/
def cleanAll : List Garden → Option (List Garden)
  | [] => some []
  | g :: rest =>
    match (cleanGardenConnectionParams g).map CleanResult.garden with
    | none => none
    | some cg => (cleanAll rest).map fun l => cg :: l

/-- `get_gardens(include_local=False)`: every database garden whose
`connection_type` differs from LOCAL, each cleaned on read. -/
def getGardensExcludeLocal (db : List Garden) : Option (List Garden) :=
  cleanAll (db.filter fun g => g.connection_type ≠ some "LOCAL")

/-- The originator branch of `garden_sync` (no `sync_target` supplied): route
one GARDEN_SYNC operation per known non-local garden, addressed to it, with
`sync_target` set to its own name.  The other branch calls `publish_garden`
and routes nothing. -/
def gardenSyncFanout (db : List Garden) : Option (List Operation) :=
  (getGardensExcludeLocal db).map fun gardens =>
    gardens.map fun g => ⟨"GARDEN_SYNC", g.name, some g.name⟩

/-! ### Association-list lemmas -/

theorem dget_dset_self (d : List (String × Value)) (k : String) (v : Value) :
    dget (dset d k v) k = some v := by
  induction d with
  | nil => simp [dset, dget]
  | cons kv rest ih =>
    by_cases h : kv.fst = k
    · simp [dset, dget, h]
    · simp [dset, dget, h, ih]

theorem dget_dset_ne (d : List (String × Value)) (k k' : String) (v : Value)
    (h : k' ≠ k) : dget (dset d k v) k' = dget d k' := by
  have hkk : ¬ (k = k') := fun hh => h hh.symm
  induction d with
  | nil => simp [dset, dget, hkk]
  | cons kv rest ih =>
    by_cases hk : kv.fst = k
    · cases kv with
      | mk k0 v0 =>
        simp only at hk
        subst hk
        simp [dset, dget, hkk]
    · simp [dset, dget, hk, ih]

theorem dset_eq_of_dget (d : List (String × Value)) (k : String) (v : Value)
    (h : dget d k = some v) : dset d k v = d := by
  induction d with
  | nil => simp [dget] at h
  | cons kv rest ih =>
    by_cases hk : kv.fst = k
    · cases kv with
      | mk k0 v0 =>
        simp only at hk
        subst hk
        simp [dget] at h
        simp [dset, h]
    · simp [dget, hk] at h
      simp [dset, hk, ih h]

theorem dpop_eq_of_dget_none (d : List (String × Value)) (k : String)
    (h : dget d k = none) : dpop d k = d := by
  induction d with
  | nil => simp [dpop]
  | cons kv rest ih =>
    by_cases hk : kv.fst = k
    · simp [dget, hk] at h
    · simp [dget, hk] at h
      simp [dpop, hk, ih h]

theorem dget_dpop_ne (d : List (String × Value)) (k k' : String) (h : k' ≠ k) :
    dget (dpop d k) k' = dget d k' := by
  have hkk : ¬ (k = k') := fun hh => h hh.symm
  induction d with
  | nil => simp [dpop]
  | cons kv rest ih =>
    by_cases hk : kv.fst = k
    · cases kv with
      | mk k0 v0 =>
        simp only at hk
        subst hk
        simp [dpop, dget, hkk]
    · simp [dpop, dget, hk, ih]

theorem dget_eq_none_of_not_mem_keys (d : List (String × Value)) (k : String)
    (h : k ∉ d.map Prod.fst) : dget d k = none := by
  induction d with
  | nil => simp [dget]
  | cons kv rest ih =>
    simp only [List.map_cons, List.mem_cons] at h
    push_neg at h
    have h1 : ¬ (kv.fst = k) := fun hh => h.1 hh.symm
    simp [dget, h1, ih h.2]

theorem dget_dpop_self_of_nodup (d : List (String × Value)) (k : String)
    (h : (d.map Prod.fst).Nodup) : dget (dpop d k) k = none := by
  induction d with
  | nil => simp [dpop, dget]
  | cons kv rest ih =>
    simp only [List.map_cons, List.nodup_cons] at h
    by_cases hk : kv.fst = k
    · subst hk
      simp only [dpop, if_pos rfl]
      exact dget_eq_none_of_not_mem_keys rest kv.fst h.1
    · simp [dpop, dget, hk, ih h.2]

theorem keys_dset_of_dget_some (d : List (String × Value)) (k : String) (v w : Value)
    (h : dget d k = some w) : (dset d k v).map Prod.fst = d.map Prod.fst := by
  induction d with
  | nil => simp [dget] at h
  | cons kv rest ih =>
    by_cases hk : kv.fst = k
    · simp [dset, hk]
    · simp [dget, hk] at h
      simp [dset, hk, ih h]

theorem keys_dset_of_dget_none (d : List (String × Value)) (k : String) (v : Value)
    (h : dget d k = none) : (dset d k v).map Prod.fst = d.map Prod.fst ++ [k] := by
  induction d with
  | nil => simp [dset]
  | cons kv rest ih =>
    by_cases hk : kv.fst = k
    · simp [dget, hk] at h
    · simp [dget, hk] at h
      simp [dset, hk, ih h]

theorem dget_isSome_of_mem_keys (d : List (String × Value)) (k : String)
    (h : k ∈ d.map Prod.fst) : (dget d k).isSome := by
  induction d with
  | nil => simp at h
  | cons kv rest ih =>
    by_cases hk : kv.fst = k
    · simp [dget, hk]
    · simp only [List.map_cons, List.mem_cons] at h
      rcases h with h0 | h0
      · exact absurd h0.symm hk
      · simp [dget, hk, ih h0]

theorem keys_dset_nodup (d : List (String × Value)) (k : String) (v : Value)
    (h : (d.map Prod.fst).Nodup) : ((dset d k v).map Prod.fst).Nodup := by
  cases hget : dget d k with
  | some w => rw [keys_dset_of_dget_some d k v w hget]; exact h
  | none =>
    rw [keys_dset_of_dget_none d k v hget]
    refine List.Nodup.append h (List.nodup_singleton k) ?_
    intro a ha hb
    simp only [List.mem_singleton] at hb
    subst hb
    have := dget_isSome_of_mem_keys d a ha
    rw [hget] at this
    simp at this

/-! ### Validator lemmas -/

theorem validateHttp_eq (v q : Value) (h : validateHttpConnectionParams v = some q) :
    q = v := by
  cases v with
  | vDict d =>
    simp only [validateHttpConnectionParams] at h
    split at h
    · exact ((Option.some.injEq _ _).mp h).symm
    · exact Option.noConfusion h
  | vStr s => exact Option.noConfusion h
  | vInt n => exact Option.noConfusion h
  | vBool b => exact Option.noConfusion h
  | vNull => exact Option.noConfusion h
  | vList l => exact Option.noConfusion h

theorem validateStomp_eq (v q : Value) (h : validateStompConnectionParams v = some q) :
    q = v := by
  cases v with
  | vDict d =>
    simp only [validateStompConnectionParams] at h
    split at h
    · exact ((Option.some.injEq _ _).mp h).symm
    · exact Option.noConfusion h
  | vStr s => exact Option.noConfusion h
  | vInt n => exact Option.noConfusion h
  | vBool b => exact Option.noConfusion h
  | vNull => exact Option.noConfusion h
  | vList l => exact Option.noConfusion h

theorem validateHttp_fixpoint (v q : Value) (h : validateHttpConnectionParams v = some q) :
    validateHttpConnectionParams q = some q := by
  have hq := validateHttp_eq v q h
  subst hq
  exact h

theorem validateStomp_fixpoint (v q : Value) (h : validateStompConnectionParams v = some q) :
    validateStompConnectionParams q = some q := by
  have hq := validateStomp_eq v q h
  subst hq
  exact h

theorem validateHttp_not_empty (v : Value) (h : validateHttpConnectionParams v = some v) :
    isEmptyDict v = false := by
  cases v with
  | vDict d =>
    cases d with
    | nil => simp [validateHttpConnectionParams, httpParamsValid, dget, isReqStr] at h
    | cons kv rest => rfl
  | vStr s => exact Option.noConfusion h
  | vInt n => exact Option.noConfusion h
  | vBool b => exact Option.noConfusion h
  | vNull => exact Option.noConfusion h
  | vList l => exact Option.noConfusion h

theorem validateStomp_not_empty (v : Value) (h : validateStompConnectionParams v = some v) :
    isEmptyDict v = false := by
  cases v with
  | vDict d =>
    cases d with
    | nil => simp [validateStompConnectionParams, stompParamsValid, dget, stompSslValid] at h
    | cons kv rest => rfl
  | vStr s => exact Option.noConfusion h
  | vInt n => exact Option.noConfusion h
  | vBool b => exact Option.noConfusion h
  | vNull => exact Option.noConfusion h
  | vList l => exact Option.noConfusion h

theorem validateHttp_defaults :
    validateHttpConnectionParams basicConnectionDefaults = some basicConnectionDefaults := rfl

/-! ### Cleaning-helper lemmas -/

theorem cleanOrDefault_of_fixpoint (p : Value) (n : String)
    (h : validateHttpConnectionParams p = some p) :
    cleanOrDefaultHttpConnectionParams (some p) n = some (p, []) := by
  simp only [cleanOrDefaultHttpConnectionParams, h]

theorem cleanOrDefault_valid (p : Option Value) (n : String) (q : Value) (m : List String)
    (h : cleanOrDefaultHttpConnectionParams p n = some (q, m)) :
    validateHttpConnectionParams q = some q := by
  cases p with
  | none =>
    simp only [cleanOrDefaultHttpConnectionParams, Option.some.injEq, Prod.mk.injEq] at h
    rw [← h.1]
    exact validateHttp_defaults
  | some p =>
    cases hv : validateHttpConnectionParams p with
    | some q' =>
      simp only [cleanOrDefaultHttpConnectionParams, hv, Option.some.injEq,
        Prod.mk.injEq] at h
      rw [← h.1]
      exact validateHttp_fixpoint p q' hv
    | none =>
      simp only [cleanOrDefaultHttpConnectionParams, hv] at h
      cases p with
      | vDict d =>
        cases hm : validateHttpConnectionParams
            (.vDict (dictMerge basicConnectionDefaultsEntries d)) with
        | some q' =>
          simp only [hm, Option.some.injEq, Prod.mk.injEq] at h
          rw [← h.1]
          exact validateHttp_fixpoint _ q' hm
        | none =>
          simp only [hm, Option.some.injEq, Prod.mk.injEq] at h
          rw [← h.1]
          exact validateHttp_defaults
      | vStr s => exact Option.noConfusion h
      | vInt nn => exact Option.noConfusion h
      | vBool b => exact Option.noConfusion h
      | vNull => exact Option.noConfusion h
      | vList l => exact Option.noConfusion h

theorem cleanOrEmptyStomp_of_fixpoint (s : Value) (n : String)
    (h : validateStompConnectionParams s = some s) :
    cleanOrEmptyStompConnectionParams (some s) n = (s, []) := by
  simp only [cleanOrEmptyStompConnectionParams, h]

theorem cleanOrEmptyHttp_of_fixpoint (q : Value) (n : String)
    (h : validateHttpConnectionParams q = some q) :
    cleanOrEmptyHttpConnectionParams (some q) n = (q, []) := by
  simp only [cleanOrEmptyHttpConnectionParams, h]

theorem cleanOrEmptyStomp_fix (p : Option Value) (n : String)
    (h : isEmptyDict (cleanOrEmptyStompConnectionParams p n).1 = false) :
    validateStompConnectionParams (cleanOrEmptyStompConnectionParams p n).1 =
      some (cleanOrEmptyStompConnectionParams p n).1 := by
  cases p with
  | none => simp [cleanOrEmptyStompConnectionParams, isEmptyDict] at h
  | some p =>
    cases hv : validateStompConnectionParams p with
    | some q =>
      simp only [cleanOrEmptyStompConnectionParams, hv]
      exact validateStomp_fixpoint p q hv
    | none => simp [cleanOrEmptyStompConnectionParams, hv, isEmptyDict] at h

theorem cleanOrEmptyStomp_src (p : Option Value) (n : String)
    (h : isEmptyDict (cleanOrEmptyStompConnectionParams p n).1 = false) :
    ∃ v, p = some v ∧
      validateStompConnectionParams v = some (cleanOrEmptyStompConnectionParams p n).1 := by
  cases p with
  | none => simp [cleanOrEmptyStompConnectionParams, isEmptyDict] at h
  | some p =>
    cases hv : validateStompConnectionParams p with
    | some q => exact ⟨p, rfl, by simp [cleanOrEmptyStompConnectionParams, hv]⟩
    | none => simp [cleanOrEmptyStompConnectionParams, hv, isEmptyDict] at h

theorem cleanOrEmptyHttp_fix (p : Option Value) (n : String)
    (h : isEmptyDict (cleanOrEmptyHttpConnectionParams p n).1 = false) :
    validateHttpConnectionParams (cleanOrEmptyHttpConnectionParams p n).1 =
      some (cleanOrEmptyHttpConnectionParams p n).1 := by
  cases p with
  | none => simp [cleanOrEmptyHttpConnectionParams, isEmptyDict] at h
  | some p =>
    cases hv : validateHttpConnectionParams p with
    | some q =>
      simp only [cleanOrEmptyHttpConnectionParams, hv]
      exact validateHttp_fixpoint p q hv
    | none => simp [cleanOrEmptyHttpConnectionParams, hv, isEmptyDict] at h

/-! ### Shape of reconciler outputs -/

/-- The `http` entry is present and is a validator fixpoint. -/
def HttpEntryFix (cp : List (String × Value)) : Prop :=
  ∃ q, dget cp "http" = some q ∧ validateHttpConnectionParams q = some q

/-- The `stomp` entry is present and is a validator fixpoint. -/
def StompEntryFix (cp : List (String × Value)) : Prop :=
  ∃ s, dget cp "stomp" = some s ∧ validateStompConnectionParams s = some s

/-- Every `(connection_type, connection_params)` pair produced by
`cleanConnectionFields` falls into one of three shapes: LOCAL with empty
params; HTTP with a valid `http` entry and a valid-or-absent `stomp` entry; or
a non-LOCAL non-HTTP declared type with a valid `stomp` entry and a
valid-or-absent `http` entry. -/
def CleanShape (t : Option String) (cp : List (String × Value)) : Prop :=
  (t = some "LOCAL" ∧ cp = []) ∨
  (t = some "HTTP" ∧ HttpEntryFix cp ∧ (dget cp "stomp" = none ∨ StompEntryFix cp)) ∨
  (t ≠ some "LOCAL" ∧ t ≠ some "HTTP" ∧ StompEntryFix cp ∧
    (dget cp "http" = none ∨ HttpEntryFix cp))

theorem cleanConnectionFields_shape (n : String) (t : Option String)
    (cp : List (String × Value)) (t' : Option String) (cp' : List (String × Value))
    (notes : List String) (hnd : (cp.map Prod.fst).Nodup)
    (h : cleanConnectionFields n t cp = some (t', cp', notes)) :
    CleanShape t' cp' := by
  have hhs : ("http" : String) ≠ "stomp" := by decide
  have hsh : ("stomp" : String) ≠ "http" := by decide
  simp only [cleanConnectionFields] at h
  split at h
  case isTrue hL =>
    split at h
    case isTrue he =>
      simp only [Option.some.injEq, Prod.mk.injEq] at h
      exact Or.inl ⟨h.1 ▸ hL, h.2.1 ▸ (List.isEmpty_iff.mp he)⟩
    case isFalse he =>
      simp only [Option.some.injEq, Prod.mk.injEq] at h
      exact Or.inl ⟨h.1 ▸ hL, h.2.1.symm⟩
  case isFalse hL =>
    split at h
    case isTrue hH =>
      -- connection_type == "HTTP"
      split at h
      case h_1 => exact Option.noConfusion h
      case h_2 q hm heq =>
        have hqfix := cleanOrDefault_valid _ n q hm heq
        split at h
        case isTrue hse =>
          -- valid stomp params kept
          simp only [Option.some.injEq, Prod.mk.injEq] at h
          obtain ⟨ht', hcp', -⟩ := h
          subst ht' hcp'
          refine Or.inr (Or.inl ⟨hH, ⟨q, ?_, hqfix⟩, Or.inr ⟨_, dget_dset_self _ _ _, ?_⟩⟩)
          · rw [dget_dset_ne _ _ _ _ hhs, dget_dset_self]
          · exact cleanOrEmptyStomp_fix _ n (by simpa using hse)
        case isFalse hse =>
          -- stomp dropped
          simp only [Option.some.injEq, Prod.mk.injEq] at h
          obtain ⟨ht', hcp', -⟩ := h
          subst ht' hcp'
          refine Or.inr (Or.inl ⟨hH, ⟨q, ?_, hqfix⟩, Or.inl ?_⟩)
          · rw [dget_dpop_ne _ _ _ hhs, dget_dset_self]
          · exact dget_dpop_self_of_nodup _ _ (keys_dset_nodup _ _ _ hnd)
    case isFalse hH =>
      -- any other declared type
      split at h
      case isTrue hguard =>
        -- forced to HTTP
        split at h
        case h_1 => exact Option.noConfusion h
        case h_2 q hm heq =>
          have hqfix := cleanOrDefault_valid _ n q hm heq
          simp only [Option.some.injEq, Prod.mk.injEq] at h
          obtain ⟨ht', hcp', -⟩ := h
          subst ht' hcp'
          refine Or.inr (Or.inl ⟨rfl, ⟨q, ?_, hqfix⟩, Or.inl ?_⟩)
          · rw [dget_dpop_ne _ _ _ hhs, dget_dset_self]
          · exact dget_dpop_self_of_nodup _ _ (keys_dset_nodup _ _ _ hnd)
      case isFalse hguard =>
        -- valid stomp params for a non-HTTP type
        rw [Bool.or_eq_true] at hguard
        push_neg at hguard
        have hsfix := cleanOrEmptyStomp_fix (dget cp "stomp") n
          (by simpa using hguard.2)
        split at h
        case isTrue hcond =>
          -- unparseable http dropped
          simp only [Option.some.injEq, Prod.mk.injEq] at h
          obtain ⟨ht', hcp', -⟩ := h
          subst ht' hcp'
          refine Or.inr (Or.inr ⟨hL, hH, ⟨_, ?_, hsfix⟩, Or.inl ?_⟩)
          · rw [dget_dpop_ne _ _ _ hsh, dget_dset_self]
          · exact dget_dpop_self_of_nodup _ _ (keys_dset_nodup _ _ _ hnd)
        case isFalse hcond =>
          split at h
          case isTrue hne =>
            -- repaired http written back
            simp only [Option.some.injEq, Prod.mk.injEq] at h
            obtain ⟨ht', hcp', -⟩ := h
            subst ht' hcp'
            refine Or.inr (Or.inr ⟨hL, hH, ⟨_, ?_, hsfix⟩,
              Or.inr ⟨_, dget_dset_self _ _ _, ?_⟩⟩)
            · rw [dget_dset_ne _ _ _ _ hsh, dget_dset_self]
            · exact cleanOrEmptyHttp_fix _ n (by simpa using hne)
          case isFalse hne =>
            -- http untouched (it was absent)
            simp only [Option.some.injEq, Prod.mk.injEq] at h
            obtain ⟨ht', hcp', -⟩ := h
            subst ht' hcp'
            rw [Bool.and_eq_true] at hcond
            push_neg at hcond
            simp only [Bool.not_eq_true] at hne
            refine Or.inr (Or.inr ⟨hL, hH, ⟨_, dget_dset_self _ _ _, hsfix⟩, Or.inl ?_⟩)
            by_cases habs : (dget (dset cp "stomp"
                (cleanOrEmptyStompConnectionParams (dget cp "stomp") n).1) "http").isSome
            · exact absurd (by simpa using hne) (by simpa using hcond habs)
            · simpa using habs

/-- The notes produced when the reconciler runs on one of its own outputs:
none at all, except the informational "No stomp connection params provided"
line that is logged whenever a non-LOCAL garden has no stomp entry. -/
def recleanNotes (n : String) (t : Option String) (cp : List (String × Value)) :
    List String :=
  if t = some "LOCAL" ∨ (dget cp "stomp").isSome then []
  else ["No stomp connection params provided for garden " ++ n]

theorem isEmptyDict_nil : isEmptyDict (.vDict []) = true := rfl

theorem cleanConnectionFields_fixpoint (n : String) (t : Option String)
    (cp : List (String × Value)) (h : CleanShape t cp) :
    cleanConnectionFields n t cp = some (t, cp, recleanNotes n t cp) := by
  rcases h with ⟨hL, hcp⟩ | ⟨hH, ⟨q, hq, hqv⟩, hstomp⟩ | ⟨hnL, hnH, ⟨s, hs, hsv⟩, hhttp⟩
  · subst hcp
    simp [cleanConnectionFields, recleanNotes, hL, dget]
  · subst hH
    have hset : dset cp "http" q = cp := dset_eq_of_dget _ _ _ hq
    rcases hstomp with hnone | ⟨s, hs, hsv⟩
    · have hpop : dpop cp "stomp" = cp := dpop_eq_of_dget_none _ _ hnone
      simp [cleanConnectionFields, recleanNotes, hnone, hq,
        cleanOrEmptyStompConnectionParams, cleanOrDefault_of_fixpoint q n hqv,
        isEmptyDict_nil, hset, hpop]
    · have hsne : isEmptyDict s = false := validateStomp_not_empty s hsv
      have hsetS : dset cp "stomp" s = cp := dset_eq_of_dget _ _ _ hs
      simp [cleanConnectionFields, recleanNotes, hq, hs,
        cleanOrEmptyStomp_of_fixpoint s n hsv, cleanOrDefault_of_fixpoint q n hqv,
        hsne, hset, hsetS]
  · have hsne : isEmptyDict s = false := validateStomp_not_empty s hsv
    have hsetS : dset cp "stomp" s = cp := dset_eq_of_dget _ _ _ hs
    rcases hhttp with hhn | ⟨q, hq, hqv⟩
    · simp [cleanConnectionFields, recleanNotes, hnL, hnH, hs, hhn,
        cleanOrEmptyStomp_of_fixpoint s n hsv, cleanOrEmptyHttpConnectionParams,
        hsne, hsetS, isEmptyDict_nil]
    · have hqne : isEmptyDict q = false := validateHttp_not_empty q hqv
      have hsetH : dset cp "http" q = cp := dset_eq_of_dget _ _ _ hq
      simp [cleanConnectionFields, recleanNotes, hnL, hnH, hs, hq,
        cleanOrEmptyStomp_of_fixpoint s n hsv, cleanOrEmptyHttp_of_fixpoint q n hqv,
        hsne, hqne, hsetS, hsetH]

/-! ### Garden-level cleaning lemmas -/

theorem cleanGarden_frame (g : Garden) (r : CleanResult)
    (h : cleanGardenConnectionParams g = some r) :
    r.garden.name = g.name ∧ r.garden.status = g.status ∧
    r.garden.status_info = g.status_info ∧ r.garden.namespaces = g.namespaces ∧
    r.garden.systems = g.systems ∧
    cleanConnectionFields g.name g.connection_type g.connection_params =
      some (r.garden.connection_type, r.garden.connection_params, r.notes) := by
  unfold cleanGardenConnectionParams at h
  cases hc : cleanConnectionFields g.name g.connection_type g.connection_params with
  | none => rw [hc] at h; exact Option.noConfusion h
  | some x =>
    rw [hc] at h
    simp only [Option.map_some', Option.some.injEq] at h
    subst h
    exact ⟨rfl, rfl, rfl, rfl, rfl, rfl⟩

/-- Cleaning a garden whose connection fields already have the reconciler's
output shape returns the garden unchanged, with only the predictable notes. -/
theorem cleanGarden_of_shape (g : Garden)
    (h : CleanShape g.connection_type g.connection_params) :
    cleanGardenConnectionParams g =
      some ⟨g, recleanNotes g.name g.connection_type g.connection_params⟩ := by
  unfold cleanGardenConnectionParams
  rw [cleanConnectionFields_fixpoint g.name _ _ h]
  rfl

/-- Cleaned output connection fields always satisfy `CleanShape` (dict keys
assumed unique, as Python dicts guarantee). -/
theorem cleanGarden_shape (g : Garden) (r : CleanResult)
    (hnd : (g.connection_params.map Prod.fst).Nodup)
    (h : cleanGardenConnectionParams g = some r) :
    CleanShape r.garden.connection_type r.garden.connection_params :=
  cleanConnectionFields_shape g.name g.connection_type g.connection_params
    r.garden.connection_type r.garden.connection_params r.notes hnd
    (cleanGarden_frame g r h).2.2.2.2.2

/-! ### Operation-level lemmas -/

theorem updateGarden_frame (g res : Garden) (h : updateGarden g = some res) :
    res.name = g.name ∧ res.status = g.status ∧ res.status_info = g.status_info ∧
    res.namespaces = g.namespaces ∧ res.systems = g.systems ∧
    ∃ notes, cleanConnectionFields g.name g.connection_type g.connection_params =
      some (res.connection_type, res.connection_params, notes) := by
  unfold updateGarden at h
  cases hc : cleanGardenConnectionParams g with
  | none => rw [hc] at h; exact Option.noConfusion h
  | some r =>
    rw [hc] at h
    simp only [Option.map_some', Option.some.injEq] at h
    subst h
    obtain ⟨h1, h2, h3, h4, h5, h6⟩ := cleanGarden_frame g r hc
    exact ⟨h1, h2, h3, h4, h5, r.notes, h6⟩

theorem updateGardenStatus_spec (stored : Garden) (now : Nat) (s : String) (res : Garden)
    (h : updateGardenStatus stored now s = some res) :
    res.status = s ∧ res.status_info = ⟨some now⟩ ∧ res.name = stored.name ∧
    res.namespaces = stored.namespaces ∧ res.systems = stored.systems := by
  unfold updateGardenStatus at h
  obtain ⟨h1, h2, h3, h4, h5, -⟩ := updateGarden_frame _ res h
  exact ⟨h2, h3, h1, h4, h5⟩

/-- Decomposition of the reconciler's HTTP branch. -/
theorem cleanConnectionFields_http_case (n : String) (t t' : Option String)
    (cp cp' : List (String × Value)) (notes : List String) (hH : t = some "HTTP")
    (h : cleanConnectionFields n t cp = some (t', cp', notes)) :
    ∃ q hm, cleanOrDefaultHttpConnectionParams (dget cp "http") n = some (q, hm) ∧
      t' = t ∧
      ((isEmptyDict (cleanOrEmptyStompConnectionParams (dget cp "stomp") n).1 = false ∧
        cp' = dset (dset cp "http" q) "stomp"
          (cleanOrEmptyStompConnectionParams (dget cp "stomp") n).1) ∨
       (isEmptyDict (cleanOrEmptyStompConnectionParams (dget cp "stomp") n).1 = true ∧
        cp' = dpop (dset cp "http" q) "stomp")) := by
  subst hH
  simp only [cleanConnectionFields] at h
  split at h
  case isTrue hc => exact absurd hc (by decide)
  case isFalse _ =>
    split at h
    case isFalse hc => exact absurd trivial hc
    case isTrue _ =>
      split at h
      case h_1 => exact Option.noConfusion h
      case h_2 q hm heq =>
        refine ⟨q, hm, heq, ?_⟩
        split at h
        case isTrue hse =>
          simp only [Option.some.injEq, Prod.mk.injEq] at h
          exact ⟨h.1.symm, Or.inl ⟨by simpa using hse, h.2.1.symm⟩⟩
        case isFalse hse =>
          simp only [Option.some.injEq, Prod.mk.injEq] at h
          exact ⟨h.1.symm, Or.inr ⟨by simpa using hse, h.2.1.symm⟩⟩

/-- Decomposition of the reconciler's forced-demotion branch. -/
theorem cleanConnectionFields_demote_case (n : String) (t t' : Option String)
    (cp cp' : List (String × Value)) (notes : List String)
    (hnl : t ≠ some "LOCAL") (hnh : t ≠ some "HTTP")
    (hguard : (dget cp "stomp").isNone = true ∨
      isEmptyDict (cleanOrEmptyStompConnectionParams (dget cp "stomp") n).1 = true)
    (h : cleanConnectionFields n t cp = some (t', cp', notes)) :
    ∃ q hm, cleanOrDefaultHttpConnectionParams (dget cp "http") n = some (q, hm) ∧
      t' = some "HTTP" ∧ cp' = dpop (dset cp "http" q) "stomp" ∧
      notes = ("Forcing connection type to HTTP for garden " ++ n) ::
        (hm ++ (cleanOrEmptyStompConnectionParams (dget cp "stomp") n).2) := by
  have hg : ((dget cp "stomp").isNone ||
      isEmptyDict (cleanOrEmptyStompConnectionParams (dget cp "stomp") n).1) = true := by
    rw [Bool.or_eq_true]; exact hguard
  simp only [cleanConnectionFields] at h
  split at h
  case isTrue hL => exact absurd hL hnl
  case isFalse _ =>
    split at h
    case h_1 heq => exact Option.noConfusion h
    case h_2 q hm heq =>
      simp only [Option.some.injEq, Prod.mk.injEq] at h
      exact ⟨q, hm, heq, h.1.symm, h.2.1.symm, h.2.2.symm⟩

/-! ### Concrete fixtures for witnesses and counterexamples -/

/-- Valid STOMP params, mirroring the repository's `good_stomp_params` test fixture. -/
def goodStompEntries : List (String × Value) :=
  [("host", .vStr "gardenhost"), ("port", .vInt 10119), ("ssl", .vDict [("use_ssl", .vBool false)])]

def goodStompParams : Value := .vDict goodStompEntries

/-- Valid HTTP params, mirroring the repository's `good_http_params` test fixture. -/
def goodHttpEntries : List (String × Value) :=
  [("host", .vStr "gardenhost"), ("port", .vInt 2337), ("url_prefix", .vStr "/"),
   ("ca_verify", .vBool false), ("ssl", .vBool false)]

def goodHttpParams : Value := .vDict goodHttpEntries

/-! ### Claim C6 -/

/-- C6: the guarded status transition applied for federation status events:
a requested UNREACHABLE or ERROR is written only when the current status is
outside {UNREACHABLE, STOPPED, BLOCKED, ERROR} (so current ERROR with
requested UNREACHABLE stays ERROR, while current RUNNING with requested
UNREACHABLE yields UNREACHABLE); a requested NOT_CONFIGURED is written only
when the current status is already NOT_CONFIGURED (so it never changes the
stored value); in every other case the status is left unchanged. -/
theorem claim_c6_guarded_status_transition (now : Nat) (eventName : String)
    (stored res : Garden) (h : handleStatusEvent now eventName stored = some res) :
    (eventName = "GARDEN_UNREACHABLE" →
      res.status = if stored.status ∈ distressStatuses then stored.status
        else "UNREACHABLE") ∧
    (eventName = "GARDEN_ERROR" →
      res.status = if stored.status ∈ distressStatuses then stored.status else "ERROR") ∧
    (eventName = "GARDEN_NOT_CONFIGURED" → res.status = stored.status) ∧
    (eventName ≠ "GARDEN_UNREACHABLE" → eventName ≠ "GARDEN_ERROR" →
      eventName ≠ "GARDEN_NOT_CONFIGURED" → res = stored) := by
  unfold handleStatusEvent at h
  by_cases h1 : eventName = "GARDEN_UNREACHABLE"
  · rw [if_pos h1] at h
    refine ⟨fun _ => ?_, fun he => absurd (h1 ▸ he) (by decide),
      fun he => absurd (h1 ▸ he) (by decide), fun hne _ _ => absurd h1 hne⟩
    by_cases hg : stored.status ∈ distressStatuses
    · rw [if_neg (not_not_intro hg)] at h
      rw [(Option.some.inj h).symm, if_pos hg]
    · rw [if_pos hg] at h
      rw [(updateGardenStatus_spec _ _ _ _ h).1, if_neg hg]
  · rw [if_neg h1] at h
    by_cases h2 : eventName = "GARDEN_ERROR"
    · rw [if_pos h2] at h
      refine ⟨fun he => absurd (h2 ▸ he) (by decide), fun _ => ?_,
        fun he => absurd (h2 ▸ he) (by decide), fun _ hne _ => absurd h2 hne⟩
      by_cases hg : stored.status ∈ distressStatuses
      · rw [if_neg (not_not_intro hg)] at h
        rw [(Option.some.inj h).symm, if_pos hg]
      · rw [if_pos hg] at h
        rw [(updateGardenStatus_spec _ _ _ _ h).1, if_neg hg]
    · rw [if_neg h2] at h
      by_cases h3 : eventName = "GARDEN_NOT_CONFIGURED"
      · rw [if_pos h3] at h
        refine ⟨fun he => absurd (h3 ▸ he) (by decide),
          fun he => absurd (h3 ▸ he) (by decide), fun _ => ?_,
          fun _ _ hne => absurd h3 hne⟩
        by_cases hc : stored.status = "NOT_CONFIGURED"
        · rw [if_pos hc] at h
          rw [(updateGardenStatus_spec _ _ _ _ h).1, hc]
        · rw [if_neg hc] at h
          rw [(Option.some.inj h).symm]
      · rw [if_neg h3] at h
        have hres : res = stored := (Option.some.inj h).symm
        exact ⟨fun he => absurd he h1, fun he => absurd he h2,
          fun he => absurd he h3, fun _ _ _ => hres⟩

def c6Stored : Garden :=
  ⟨"child", some "HTTP", [("http", basicConnectionDefaults)], "RUNNING", ⟨some 0⟩, [], []⟩

def c6Result : Garden := { c6Stored with status := "UNREACHABLE", status_info := ⟨some 3⟩ }

theorem claim_c6_guarded_status_transition_witness :
    ("GARDEN_UNREACHABLE" = "GARDEN_UNREACHABLE" →
      c6Result.status = if c6Stored.status ∈ distressStatuses then c6Stored.status
        else "UNREACHABLE") ∧
    ("GARDEN_UNREACHABLE" = "GARDEN_ERROR" →
      c6Result.status = if c6Stored.status ∈ distressStatuses then c6Stored.status
        else "ERROR") ∧
    ("GARDEN_UNREACHABLE" = "GARDEN_NOT_CONFIGURED" → c6Result.status = c6Stored.status) ∧
    ("GARDEN_UNREACHABLE" ≠ "GARDEN_UNREACHABLE" → "GARDEN_UNREACHABLE" ≠ "GARDEN_ERROR" →
      "GARDEN_UNREACHABLE" ≠ "GARDEN_NOT_CONFIGURED" → c6Result = c6Stored) :=
  claim_c6_guarded_status_transition 3 "GARDEN_UNREACHABLE" c6Stored c6Result rfl

/-! ### Claim C2 -/

def c2Stored : Garden :=
  ⟨"child", some "HTTP", [("http", basicConnectionDefaults)], "RUNNING", ⟨some 5⟩, [], []⟩

def c2Input : Garden :=
  ⟨"child", some "HTTP", [("http", basicConnectionDefaults)], "RUNNING", ⟨none⟩, [], []⟩

def c2ConfigResult : Garden := { c2Stored with status := "INITIALIZING" }

/-- C2 counterexample: `update_garden_config` writes the status field (forcing
INITIALIZING over the stored RUNNING) yet leaves `status_info.heartbeat` at its
stale stored value, so at any current time other than 5 (say 7) the heartbeat
was not refreshed to the current time. -/
theorem claim_c2_heartbeat_cex :
    updateGardenConfig c2Stored c2Input = some c2ConfigResult ∧
    c2ConfigResult.status = "INITIALIZING" ∧
    c2ConfigResult.status ≠ c2Stored.status ∧
    c2ConfigResult.status_info.heartbeat = some 5 ∧
    c2ConfigResult.status_info.heartbeat ≠ some 7 :=
  ⟨rfl, rfl, by decide, rfl, by decide⟩

/-- C2 (amended): `update_garden_status` — and hence every accepted guarded
federation status transition — refreshes `status_info.heartbeat` to the
current time together with the status write; `update_garden_config`, however,
sets the status to INITIALIZING without touching `status_info` at all. -/
theorem claim_c2_amended_heartbeat (stored input res : Garden) (now : Nat) (s : String) :
    (updateGardenStatus stored now s = some res →
      res.status = s ∧ res.status_info = ⟨some now⟩) ∧
    (stored.status ∉ distressStatuses →
      handleStatusEvent now "GARDEN_UNREACHABLE" stored = some res →
      res.status_info = ⟨some now⟩) ∧
    (stored.status ∉ distressStatuses →
      handleStatusEvent now "GARDEN_ERROR" stored = some res →
      res.status_info = ⟨some now⟩) ∧
    (stored.status = "NOT_CONFIGURED" →
      handleStatusEvent now "GARDEN_NOT_CONFIGURED" stored = some res →
      res.status_info = ⟨some now⟩) ∧
    (updateGardenConfig stored input = some res →
      res.status = "INITIALIZING" ∧ res.status_info = stored.status_info) := by
  refine ⟨fun h => ?_, fun hg hh => ?_, fun hg hh => ?_, fun hc hh => ?_, fun h => ?_⟩
  · obtain ⟨h1, h2, -⟩ := updateGardenStatus_spec _ _ _ _ h
    exact ⟨h1, h2⟩
  · unfold handleStatusEvent at hh
    rw [if_pos rfl, if_pos hg] at hh
    exact (updateGardenStatus_spec _ _ _ _ hh).2.1
  · unfold handleStatusEvent at hh
    rw [if_neg (by decide), if_pos rfl, if_pos hg] at hh
    exact (updateGardenStatus_spec _ _ _ _ hh).2.1
  · unfold handleStatusEvent at hh
    rw [if_neg (by decide), if_neg (by decide), if_pos rfl, if_pos hc] at hh
    exact (updateGardenStatus_spec _ _ _ _ hh).2.1
  · unfold updateGardenConfig at h
    obtain ⟨-, h2, h3, -, -, -⟩ := updateGarden_frame _ res h
    exact ⟨h2, h3⟩

def c2StatusResult : Garden := { c2Stored with status := "BLOCKED", status_info := ⟨some 9⟩ }

theorem claim_c2_amended_heartbeat_witness :
    c2StatusResult.status = "BLOCKED" ∧ c2StatusResult.status_info = ⟨some 9⟩ :=
  (claim_c2_amended_heartbeat c2Stored c2Stored c2StatusResult 9 "BLOCKED").1 rfl

/-! ### Claim C10 -/

def c10Stored : Garden :=
  ⟨"child", some "HTTP", [("http", basicConnectionDefaults)], "RUNNING", ⟨some 5⟩,
   ["ns"], [⟨"sys", false⟩]⟩

def c10Input : Garden := ⟨"other", some "STOMP", [], "RUNNING", ⟨none⟩, [], []⟩

def c10Result : Garden :=
  ⟨"child", some "HTTP", [("http", basicConnectionDefaults)], "INITIALIZING", ⟨some 5⟩,
   ["ns"], [⟨"sys", false⟩]⟩

/-- C10 counterexample: `update_garden_config` does not copy the input's
connection fields verbatim — the persisted record goes through
`clean_garden_connection_params`, which here demotes the input's declared
STOMP type (no stomp params) to HTTP with defaulted http params. -/
theorem claim_c10_config_cex :
    updateGardenConfig c10Stored c10Input = some c10Result ∧
    c10Input.connection_type = some "STOMP" ∧
    c10Result.connection_type = some "HTTP" ∧
    c10Result.connection_type ≠ c10Input.connection_type ∧
    c10Result.connection_params ≠ c10Input.connection_params :=
  ⟨rfl, rfl, rfl, by decide, List.cons_ne_nil _ _⟩

/-- C10 (amended): `update_garden_config` unconditionally resets the stored
garden's status to INITIALIZING regardless of the input's status, leaves
`name`, `namespaces`, `systems` and `status_info` exactly as stored, and takes
the connection fields from the input after passing them through the
connection-parameter reconciler (which may repair them or demote STOMP to
HTTP). -/
theorem claim_c10_amended_config_update (stored input res : Garden)
    (h : updateGardenConfig stored input = some res) :
    res.status = "INITIALIZING" ∧ res.name = stored.name ∧
    res.status_info = stored.status_info ∧ res.namespaces = stored.namespaces ∧
    res.systems = stored.systems ∧
    ∃ notes, cleanConnectionFields stored.name input.connection_type
      input.connection_params = some (res.connection_type, res.connection_params, notes) := by
  unfold updateGardenConfig at h
  obtain ⟨h1, h2, h3, h4, h5, h6⟩ := updateGarden_frame _ res h
  exact ⟨h2, h1, h3, h4, h5, h6⟩

theorem claim_c10_amended_config_update_witness :
    c10Result.status = "INITIALIZING" ∧ c10Result.name = c10Stored.name ∧
    c10Result.status_info = c10Stored.status_info ∧
    c10Result.namespaces = c10Stored.namespaces ∧
    c10Result.systems = c10Stored.systems ∧
    ∃ notes, cleanConnectionFields c10Stored.name c10Input.connection_type
      c10Input.connection_params =
        some (c10Result.connection_type, c10Result.connection_params, notes) :=
  claim_c10_amended_config_update c10Stored c10Input c10Result rfl

/-! ### Claim C8 -/

theorem cleanAll_names (l gs : List Garden) (h : cleanAll l = some gs) :
    gs.map Garden.name = l.map Garden.name := by
  induction l generalizing gs with
  | nil =>
    simp only [cleanAll, Option.some.injEq] at h
    subst h
    rfl
  | cons g rest ih =>
    simp only [cleanAll] at h
    split at h
    case h_1 => exact Option.noConfusion h
    case h_2 cg hc =>
      cases hr : cleanAll rest with
      | none => rw [hr] at h; exact Option.noConfusion h
      | some l2 =>
        rw [hr] at h
        simp only [Option.map_some', Option.some.injEq] at h
        subst h
        have hname : cg.name = g.name := by
          cases hcc : cleanGardenConnectionParams g with
          | none => rw [hcc] at hc; exact Option.noConfusion hc
          | some r =>
            rw [hcc] at hc
            simp only [Option.map_some', Option.some.injEq] at hc
            subst hc
            exact (cleanGarden_frame g r hcc).1
        simp [hname, ih l2 hr]

/-- C8: `garden_sync` invoked with no `sync_target` issues exactly one routed
GARDEN_SYNC operation per known non-local garden — no more, no fewer — each
addressed to that garden with `sync_target` equal to that garden's own name
(with three known non-local gardens, exactly three operations: see the
witness). -/
theorem claim_c8_sync_fanout (db : List Garden) (ops : List Operation)
    (h : gardenSyncFanout db = some ops) :
    ops = (db.filter fun g => g.connection_type ≠ some "LOCAL").map
      (fun g => ⟨"GARDEN_SYNC", g.name, some g.name⟩) ∧
    ops.length = (db.filter fun g => g.connection_type ≠ some "LOCAL").length ∧
    ∀ op ∈ ops, op.operation_type = "GARDEN_SYNC" ∧
      op.syncTarget = some op.target_garden_name := by
  unfold gardenSyncFanout getGardensExcludeLocal at h
  cases hc : cleanAll (db.filter fun g => g.connection_type ≠ some "LOCAL") with
  | none => rw [hc] at h; exact Option.noConfusion h
  | some gs =>
    rw [hc] at h
    simp only [Option.map_some', Option.some.injEq] at h
    subst h
    have hnames := cleanAll_names _ _ hc
    refine ⟨?_, ?_, ?_⟩
    · have h1 : gs.map (fun g => (⟨"GARDEN_SYNC", g.name, some g.name⟩ : Operation)) =
          (gs.map Garden.name).map fun nm => ⟨"GARDEN_SYNC", nm, some nm⟩ := by
        rw [List.map_map]
        rfl
      rw [h1, hnames, List.map_map]
      rfl
    · rw [List.length_map]
      have := congrArg List.length hnames
      simpa using this
    · intro op hop
      rcases List.mem_map.mp hop with ⟨g, -, rfl⟩
      exact ⟨rfl, rfl⟩

def c8Db : List Garden :=
  [⟨"localgarden", some "LOCAL", [], "RUNNING", ⟨none⟩, [], []⟩,
   ⟨"childA", some "HTTP", [("http", basicConnectionDefaults)], "RUNNING", ⟨none⟩, [], []⟩,
   ⟨"childB", some "STOMP", [("stomp", goodStompParams)], "RUNNING", ⟨none⟩, [], []⟩,
   ⟨"childC", none, [], "RUNNING", ⟨none⟩, [], []⟩]

def c8Ops : List Operation :=
  [⟨"GARDEN_SYNC", "childA", some "childA"⟩,
   ⟨"GARDEN_SYNC", "childB", some "childB"⟩,
   ⟨"GARDEN_SYNC", "childC", some "childC"⟩]

theorem claim_c8_sync_fanout_witness :
    (c8Ops = (c8Db.filter fun g => g.connection_type ≠ some "LOCAL").map
      (fun g => ⟨"GARDEN_SYNC", g.name, some g.name⟩) ∧
     c8Ops.length = (c8Db.filter fun g => g.connection_type ≠ some "LOCAL").length ∧
     ∀ op ∈ c8Ops, op.operation_type = "GARDEN_SYNC" ∧
       op.syncTarget = some op.target_garden_name) ∧
    c8Ops.length = 3 :=
  ⟨claim_c8_sync_fanout c8Db c8Ops rfl, rfl⟩

/-! ### Claim C1 -/

/-- Reconciling a garden declared with no connection type and no connection
params (exactly what the event reconciler hands to `create_garden` for an
unknown child) forces HTTP with fully defaulted http params. -/
theorem cleanConnectionFields_none_nil (n : String) :
    cleanConnectionFields n none [] =
      some (some "HTTP", [("http", basicConnectionDefaults)],
        ["Forcing connection type to HTTP for garden " ++ n,
         "Used defaults for all values of http connection params for garden " ++ n,
         "No stomp connection params provided for garden " ++ n]) := rfl

theorem createGarden_stripped (now : Nat) (p : Garden)
    (hct : p.connection_type = none) (hcp : p.connection_params = []) :
    createGarden now p = some { p with
      connection_type := some "HTTP",
      connection_params := [("http", basicConnectionDefaults)],
      status_info := ⟨some now⟩ } := by
  unfold createGarden cleanGardenConnectionParams
  rw [hct, hcp, cleanConnectionFields_none_nil]
  rfl

def c1Payload : Garden :=
  ⟨"child", some "STOMP", [("stomp", goodStompParams), ("http", .vStr "junk")],
   "RUNNING", ⟨some 42⟩, ["ns"], [⟨"sys", true⟩]⟩

def c1Event : Event := ⟨"GARDEN_STARTED", "child", c1Payload⟩

def c1Created : Garden :=
  ⟨"child", some "HTTP", [("http", basicConnectionDefaults)], "RUNNING", ⟨some 7⟩,
   ["ns"], [⟨"sys", false⟩]⟩

def c1Events : List PublishedEvent := [⟨"SYSTEM_UPDATED", "child", "System", ⟨"sys", false⟩⟩]

/-- C1 counterexample: a GARDEN_STARTED event from an unknown direct child
arriving with populated (valid!) connection params does have its connection
info stripped by the handler, but `create_garden` re-runs the reconciler on
the stripped record, so the created record's `connection_params` is the
defaulted `{http: ...}` mapping — not the empty mapping the claim states. -/
theorem claim_c1_unknown_child_cex :
    handleLifecycleEvent "parent" 7 c1Event none = some (c1Created, c1Events) ∧
    c1Event.payload.connection_params ≠ [] ∧
    c1Created.connection_params = [("http", basicConnectionDefaults)] ∧
    c1Created.connection_params ≠ [] :=
  ⟨rfl, List.cons_ne_nil _ _, rfl, List.cons_ne_nil _ _⟩

/-- C1 (amended): for an inbound lifecycle event from a direct child with no
existing record, the reconciler strips all connection info from the payload
(connection type cleared, params emptied), but the subsequent create re-runs
connection-parameter reconciliation, so the persisted record has
`connection_type = HTTP` and `connection_params` equal to the defaulted
`{http: ...}` mapping rather than the empty mapping; the child's self-reported
connection params never survive in either case. -/
theorem claim_c1_amended_unknown_child (localName : String) (now : Nat) (ev : Event)
    (g : Garden) (evts : List PublishedEvent)
    (h : handleLifecycleEvent localName now ev none = some (g, evts)) :
    g.connection_type = some "HTTP" ∧
    g.connection_params = [("http", basicConnectionDefaults)] ∧
    g.status_info = ⟨some now⟩ ∧
    g.name = ev.payload.name ∧ g.status = ev.payload.status ∧
    g.namespaces = ev.payload.namespaces ∧
    g.systems = markSystemsNonlocal ev.payload.systems ∧
    evts = g.systems.map fun s => ⟨"SYSTEM_UPDATED", ev.garden, "System", s⟩ := by
  unfold handleLifecycleEvent at h
  split at h
  case isFalse => exact Option.noConfusion h
  case isTrue hcond =>
    have h2 : (createGarden now
        { name := ev.payload.name, connection_type := none, connection_params := [],
          status := ev.payload.status, status_info := ev.payload.status_info,
          namespaces := ev.payload.namespaces,
          systems := markSystemsNonlocal ev.payload.systems }).map
        (fun garden => (garden, garden.systems.map fun s =>
          (⟨"SYSTEM_UPDATED", ev.garden, "System", s⟩ : PublishedEvent))) = some (g, evts) := h
    rw [createGarden_stripped now _ rfl rfl] at h2
    simp only [Option.map_some', Option.some.injEq, Prod.mk.injEq] at h2
    obtain ⟨hg, hevts⟩ := h2
    subst hg
    exact ⟨rfl, rfl, rfl, rfl, rfl, rfl, rfl, hevts.symm⟩

theorem claim_c1_amended_unknown_child_witness :
    c1Created.connection_type = some "HTTP" ∧
    c1Created.connection_params = [("http", basicConnectionDefaults)] ∧
    c1Created.status_info = ⟨some 7⟩ ∧
    c1Created.name = c1Event.payload.name ∧ c1Created.status = c1Event.payload.status ∧
    c1Created.namespaces = c1Event.payload.namespaces ∧
    c1Created.systems = markSystemsNonlocal c1Event.payload.systems ∧
    c1Events = c1Created.systems.map fun s => ⟨"SYSTEM_UPDATED", c1Event.garden, "System", s⟩ :=
  claim_c1_amended_unknown_child "parent" 7 c1Event c1Created c1Events rfl

/-! ### Claim C7 -/

/-- C7: for a lifecycle event from a direct child garden that already has a
record (whose stored connection fields have the reconciler's output shape, as
everything persisted by this module does), the event reconciler overwrites
only `status`, `status_info`, `namespaces` and `systems` from the payload
(systems marked non-local), leaves the stored `connection_type` and
`connection_params` untouched in the persisted record, and emits exactly one
SYSTEM_UPDATED event per system in the resulting record, tagged with the
origin garden. -/
theorem claim_c7_known_child_update (localName : String) (now : Nat) (ev : Event)
    (stored g : Garden) (evts : List PublishedEvent)
    (hshape : CleanShape stored.connection_type stored.connection_params)
    (h : handleLifecycleEvent localName now ev (some stored) = some (g, evts)) :
    g.connection_type = stored.connection_type ∧
    g.connection_params = stored.connection_params ∧
    g.status = ev.payload.status ∧ g.status_info = ev.payload.status_info ∧
    g.namespaces = ev.payload.namespaces ∧
    g.systems = markSystemsNonlocal ev.payload.systems ∧
    g.name = stored.name ∧
    evts = g.systems.map fun s => ⟨"SYSTEM_UPDATED", ev.garden, "System", s⟩ := by
  have hclean := cleanGarden_of_shape stored hshape
  have hupd : updateGarden
      { name := stored.name, connection_type := stored.connection_type,
        connection_params := stored.connection_params, status := ev.payload.status,
        status_info := ev.payload.status_info, namespaces := ev.payload.namespaces,
        systems := markSystemsNonlocal ev.payload.systems } =
      some
      { name := stored.name, connection_type := stored.connection_type,
        connection_params := stored.connection_params, status := ev.payload.status,
        status_info := ev.payload.status_info, namespaces := ev.payload.namespaces,
        systems := markSystemsNonlocal ev.payload.systems } := by
    unfold updateGarden
    rw [cleanGarden_of_shape
      { name := stored.name, connection_type := stored.connection_type,
        connection_params := stored.connection_params, status := ev.payload.status,
        status_info := ev.payload.status_info, namespaces := ev.payload.namespaces,
        systems := markSystemsNonlocal ev.payload.systems } hshape]
    rfl
  unfold handleLifecycleEvent at h
  split at h
  case isFalse => exact Option.noConfusion h
  case isTrue hcond =>
    split at h
    case h_1 heq => exact Option.noConfusion heq
    case h_2 storedRec heq =>
      obtain rfl : stored = storedRec := Option.some.inj heq
      split at h
      case h_1 heq2 =>
        rw [hclean] at heq2
        exact Option.noConfusion heq2
      case h_2 existing heq2 =>
        rw [hclean] at heq2
        simp only [Option.map_some', Option.some.injEq] at heq2
        subst heq2
        have h2 : (updateGarden
            { name := stored.name, connection_type := stored.connection_type,
              connection_params := stored.connection_params, status := ev.payload.status,
              status_info := ev.payload.status_info, namespaces := ev.payload.namespaces,
              systems := markSystemsNonlocal ev.payload.systems }).map
            (fun garden => (garden, garden.systems.map fun s =>
              (⟨"SYSTEM_UPDATED", ev.garden, "System", s⟩ : PublishedEvent))) =
            some (g, evts) := h
        rw [hupd] at h2
        simp only [Option.map_some', Option.some.injEq, Prod.mk.injEq] at h2
        obtain ⟨hg, hevts⟩ := h2
        subst hg
        exact ⟨rfl, rfl, rfl, rfl, rfl, rfl, rfl, hevts.symm⟩

def c7Stored : Garden :=
  ⟨"child", some "STOMP", [("stomp", goodStompParams)], "RUNNING", ⟨some 1⟩,
   ["old"], [⟨"oldsys", false⟩]⟩

def c7Payload : Garden :=
  ⟨"child", some "HTTP", [("http", .vStr "junk")], "STOPPED", ⟨some 99⟩,
   ["ns2"], [⟨"sysA", true⟩, ⟨"sysB", true⟩]⟩

def c7Event : Event := ⟨"GARDEN_UPDATED", "child", c7Payload⟩

def c7Result : Garden :=
  ⟨"child", some "STOMP", [("stomp", goodStompParams)], "STOPPED", ⟨some 99⟩,
   ["ns2"], [⟨"sysA", false⟩, ⟨"sysB", false⟩]⟩

def c7Events : List PublishedEvent :=
  [⟨"SYSTEM_UPDATED", "child", "System", ⟨"sysA", false⟩⟩,
   ⟨"SYSTEM_UPDATED", "child", "System", ⟨"sysB", false⟩⟩]

theorem claim_c7_known_child_update_witness :
    c7Result.connection_type = c7Stored.connection_type ∧
    c7Result.connection_params = c7Stored.connection_params ∧
    c7Result.status = c7Event.payload.status ∧
    c7Result.status_info = c7Event.payload.status_info ∧
    c7Result.namespaces = c7Event.payload.namespaces ∧
    c7Result.systems = markSystemsNonlocal c7Event.payload.systems ∧
    c7Result.name = c7Stored.name ∧
    c7Events = c7Result.systems.map fun s =>
      ⟨"SYSTEM_UPDATED", c7Event.garden, "System", s⟩ :=
  claim_c7_known_child_update "parent" 5 c7Event c7Stored c7Result c7Events
    (Or.inr (Or.inr ⟨by decide, by decide, ⟨goodStompParams, rfl, rfl⟩, Or.inl rfl⟩)) rfl

/-! ### Claims C9 and C4 -/

/-- Absent or unvalidatable stomp params trigger the demotion guard. -/
theorem stomp_guard_of_bad (cp : List (String × Value)) (n : String)
    (hbad : dget cp "stomp" = none ∨
      ∀ v, dget cp "stomp" = some v → validateStompConnectionParams v = none) :
    (dget cp "stomp").isNone = true ∨
      isEmptyDict (cleanOrEmptyStompConnectionParams (dget cp "stomp") n).1 = true := by
  cases hs : dget cp "stomp" with
  | none => exact Or.inl rfl
  | some v =>
    rcases hbad with hnone | hinv
    · rw [hs] at hnone
      exact Option.noConfusion hnone
    · right
      have hv := hinv v hs
      simp [cleanOrEmptyStompConnectionParams, hs, hv, isEmptyDict]

/-- C9: for a garden whose declared connection type is neither LOCAL nor HTTP
(including the cleared/None type the event reconciler assigns to a newly
discovered child), the reconciler takes the STOMP branch; with no valid stomp
params present it sets the connection type to HTTP and installs the http
parameter set from the default/repair logic — fully defaulted when no http
params were present — rather than leaving the connection info empty. -/
theorem claim_c9_nonlocal_nonhttp_branch (g : Garden) (r : CleanResult)
    (hnl : g.connection_type ≠ some "LOCAL") (hnh : g.connection_type ≠ some "HTTP")
    (hbad : dget g.connection_params "stomp" = none ∨
      ∀ v, dget g.connection_params "stomp" = some v →
        validateStompConnectionParams v = none)
    (h : cleanGardenConnectionParams g = some r) :
    r.garden.connection_type = some "HTTP" ∧
    (dget g.connection_params "http" = none →
      dget r.garden.connection_params "http" = some basicConnectionDefaults) ∧
    r.garden.connection_params ≠ [] := by
  have hc := (cleanGarden_frame g r h).2.2.2.2.2
  have hguard := stomp_guard_of_bad g.connection_params g.name hbad
  obtain ⟨q, hm, hq, ht, hcp, -⟩ :=
    cleanConnectionFields_demote_case g.name _ _ _ _ _ hnl hnh hguard hc
  have hgetq : dget r.garden.connection_params "http" = some q := by
    rw [hcp, dget_dpop_ne _ _ _ (by decide), dget_dset_self]
  refine ⟨ht, ?_, ?_⟩
  · intro habs
    rw [habs] at hq
    have hqd : q = basicConnectionDefaults := by
      simp only [cleanOrDefaultHttpConnectionParams, Option.some.injEq, Prod.mk.injEq] at hq
      exact hq.1.symm
    rw [hgetq, hqd]
  · intro hnil
    rw [hnil] at hgetq
    simp [dget] at hgetq

def c9Garden : Garden := ⟨"newchild", none, [], "RUNNING", ⟨none⟩, [], []⟩

def c9Result : CleanResult :=
  ⟨⟨"newchild", some "HTTP", [("http", basicConnectionDefaults)], "RUNNING", ⟨none⟩, [], []⟩,
   ["Forcing connection type to HTTP for garden newchild",
    "Used defaults for all values of http connection params for garden newchild",
    "No stomp connection params provided for garden newchild"]⟩

theorem claim_c9_nonlocal_nonhttp_branch_witness :
    c9Result.garden.connection_type = some "HTTP" ∧
    (dget c9Garden.connection_params "http" = none →
      dget c9Result.garden.connection_params "http" = some basicConnectionDefaults) ∧
    c9Result.garden.connection_params ≠ [] :=
  claim_c9_nonlocal_nonhttp_branch c9Garden c9Result (by decide) (by decide)
    (Or.inl rfl) rfl

/-- C4: a garden declared STOMP whose stomp sub-params are absent or fail
validation is demoted to connection type HTTP, its stomp key removed, its http
sub-params filled by the same default/repair logic as the HTTP case
(`cleanOrDefaultHttpConnectionParams`), with a note recording the forced
demotion; and the reverse demotion never happens — a garden declared HTTP
always comes out of the reconciler still declared HTTP, never STOMP. -/
theorem claim_c4_stomp_demotion (g : Garden) (r : CleanResult)
    (hnd : (g.connection_params.map Prod.fst).Nodup)
    (h : cleanGardenConnectionParams g = some r) :
    ((g.connection_type = some "STOMP" ∧
      (dget g.connection_params "stomp" = none ∨
        ∀ v, dget g.connection_params "stomp" = some v →
          validateStompConnectionParams v = none)) →
      r.garden.connection_type = some "HTTP" ∧
      dget r.garden.connection_params "stomp" = none ∧
      (∃ q hm, cleanOrDefaultHttpConnectionParams (dget g.connection_params "http")
          g.name = some (q, hm) ∧ dget r.garden.connection_params "http" = some q) ∧
      ("Forcing connection type to HTTP for garden " ++ g.name) ∈ r.notes) ∧
    (g.connection_type = some "HTTP" → r.garden.connection_type = some "HTTP") := by
  have hc := (cleanGarden_frame g r h).2.2.2.2.2
  constructor
  · rintro ⟨hst, hbad⟩
    have hguard := stomp_guard_of_bad g.connection_params g.name hbad
    obtain ⟨q, hm, hq, ht, hcp, hnotes⟩ :=
      cleanConnectionFields_demote_case g.name _ _ _ _ _
        (by rw [hst]; decide) (by rw [hst]; decide) hguard hc
    refine ⟨ht, ?_, ⟨q, hm, hq, ?_⟩, ?_⟩
    · rw [hcp]
      exact dget_dpop_self_of_nodup _ _ (keys_dset_nodup _ _ _ hnd)
    · rw [hcp, dget_dpop_ne _ _ _ (by decide), dget_dset_self]
    · rw [hnotes]
      exact List.mem_cons_self _ _
  · intro hH
    obtain ⟨q, hm, hq, ht, -⟩ :=
      cleanConnectionFields_http_case g.name _ _ _ _ _ hH hc
    rw [ht, hH]

def c4Garden : Garden :=
  ⟨"child", some "STOMP", [("stomp", .vDict [("host", .vStr "h")])], "RUNNING",
   ⟨none⟩, [], []⟩

def c4Result : CleanResult :=
  ⟨⟨"child", some "HTTP", [("http", basicConnectionDefaults)], "RUNNING", ⟨none⟩, [], []⟩,
   ["Forcing connection type to HTTP for garden child",
    "Used defaults for all values of http connection params for garden child",
    "Unable to parse stomp connection params for garden child"]⟩

theorem claim_c4_stomp_demotion_witness :
    c4Result.garden.connection_type = some "HTTP" ∧
    dget c4Result.garden.connection_params "stomp" = none ∧
    (∃ q hm, cleanOrDefaultHttpConnectionParams (dget c4Garden.connection_params "http")
        c4Garden.name = some (q, hm) ∧
      dget c4Result.garden.connection_params "http" = some q) ∧
    ("Forcing connection type to HTTP for garden " ++ c4Garden.name) ∈ c4Result.notes :=
  (claim_c4_stomp_demotion c4Garden c4Result (by decide) rfl).1
    ⟨rfl, Or.inr fun v hv => by
      have hveq : v = Value.vDict [("host", Value.vStr "h")] := (Option.some.inj hv).symm
      rw [hveq]
      rfl⟩

/-! ### Claim C5 -/

/-- C5: for a garden declared HTTP, reconciliation always leaves an `http`
entry that is schema-valid, obtained from the default/repair chain (absent
input replaced by the built-in defaults; a valid input kept unchanged; an
invalid dict merged over the defaults and re-validated; a still-invalid input
replaced fully by the defaults); the `stomp` entry survives only if it was
supplied and validates — in particular a supplied empty `stomp: {}` mapping is
treated as absent and dropped. -/
theorem claim_c5_http_reconciliation (g : Garden) (r : CleanResult)
    (hnd : (g.connection_params.map Prod.fst).Nodup)
    (hH : g.connection_type = some "HTTP")
    (h : cleanGardenConnectionParams g = some r) :
    (∃ q hm, cleanOrDefaultHttpConnectionParams (dget g.connection_params "http")
        g.name = some (q, hm) ∧
      dget r.garden.connection_params "http" = some q ∧
      validateHttpConnectionParams q = some q ∧
      (dget g.connection_params "http" = none → q = basicConnectionDefaults) ∧
      (∀ v, dget g.connection_params "http" = some v →
        validateHttpConnectionParams v = some v → q = v) ∧
      (∀ d, dget g.connection_params "http" = some (.vDict d) →
        validateHttpConnectionParams (.vDict d) = none →
        (∀ q2, validateHttpConnectionParams
            (.vDict (dictMerge basicConnectionDefaultsEntries d)) = some q2 → q = q2) ∧
        (validateHttpConnectionParams
            (.vDict (dictMerge basicConnectionDefaultsEntries d)) = none →
          q = basicConnectionDefaults))) ∧
    (∀ s, dget r.garden.connection_params "stomp" = some s →
      ∃ v, dget g.connection_params "stomp" = some v ∧
        validateStompConnectionParams v = some s) ∧
    (dget g.connection_params "stomp" = some (.vDict []) →
      dget r.garden.connection_params "stomp" = none) := by
  have hc := (cleanGarden_frame g r h).2.2.2.2.2
  obtain ⟨q, hm, hq, ht, hsub⟩ :=
    cleanConnectionFields_http_case g.name _ _ _ _ _ hH hc
  refine ⟨⟨q, hm, hq, ?_, cleanOrDefault_valid _ _ _ _ hq, ?_, ?_, ?_⟩, ?_, ?_⟩
  · rcases hsub with ⟨hne, hcp⟩ | ⟨hemp, hcp⟩
    · rw [hcp, dget_dset_ne _ _ _ _ (by decide), dget_dset_self]
    · rw [hcp, dget_dpop_ne _ _ _ (by decide), dget_dset_self]
  · intro habs
    rw [habs] at hq
    simp only [cleanOrDefaultHttpConnectionParams, Option.some.injEq, Prod.mk.injEq] at hq
    exact hq.1.symm
  · intro v hv hval
    rw [hv, cleanOrDefault_of_fixpoint v g.name hval] at hq
    exact (Prod.mk.injEq _ _ _ _ ▸ Option.some.inj hq).1.symm
  · intro d hd hinv
    rw [hd] at hq
    simp only [cleanOrDefaultHttpConnectionParams, hinv] at hq
    split at hq
    case h_1 q2 heq2 =>
      simp only [Option.some.injEq, Prod.mk.injEq] at hq
      refine ⟨fun q3 hq3 => ?_, fun hnone => ?_⟩
      · rw [heq2] at hq3
        rw [← hq.1, Option.some.inj hq3]
      · rw [hnone] at heq2
        exact Option.noConfusion heq2
    case h_2 heq2 =>
      simp only [Option.some.injEq, Prod.mk.injEq] at hq
      refine ⟨fun q3 hq3 => ?_, fun _ => hq.1.symm⟩
      rw [heq2] at hq3
      exact Option.noConfusion hq3
  · intro s hs
    rcases hsub with ⟨hne, hcp⟩ | ⟨hemp, hcp⟩
    · rw [hcp, dget_dset_self] at hs
      obtain ⟨v, hv, hval⟩ := cleanOrEmptyStomp_src (dget g.connection_params "stomp")
        g.name hne
      exact ⟨v, hv, by rw [hval, Option.some.inj hs]⟩
    · rw [hcp, dget_dpop_self_of_nodup _ _ (keys_dset_nodup _ _ _ hnd)] at hs
      exact Option.noConfusion hs
  · intro hse
    rcases hsub with ⟨hne, hcp⟩ | ⟨hemp, hcp⟩
    · have : isEmptyDict (cleanOrEmptyStompConnectionParams
          (dget g.connection_params "stomp") g.name).1 = true := by
        rw [hse]
        rfl
      rw [this] at hne
      exact Bool.noConfusion hne
    · rw [hcp]
      exact dget_dpop_self_of_nodup _ _ (keys_dset_nodup _ _ _ hnd)

def c5Garden : Garden :=
  ⟨"child", some "HTTP", [("http", goodHttpParams), ("stomp", .vDict [])], "RUNNING",
   ⟨none⟩, [], []⟩

def c5Result : CleanResult :=
  ⟨⟨"child", some "HTTP", [("http", goodHttpParams)], "RUNNING", ⟨none⟩, [], []⟩,
   ["Removed unparseable stomp connnection params from garden child",
    "Unable to parse stomp connection params for garden child"]⟩

theorem claim_c5_http_reconciliation_witness :
    (∃ q hm, cleanOrDefaultHttpConnectionParams (dget c5Garden.connection_params "http")
        c5Garden.name = some (q, hm) ∧
      dget c5Result.garden.connection_params "http" = some q ∧
      validateHttpConnectionParams q = some q ∧
      (dget c5Garden.connection_params "http" = none → q = basicConnectionDefaults) ∧
      (∀ v, dget c5Garden.connection_params "http" = some v →
        validateHttpConnectionParams v = some v → q = v) ∧
      (∀ d, dget c5Garden.connection_params "http" = some (.vDict d) →
        validateHttpConnectionParams (.vDict d) = none →
        (∀ q2, validateHttpConnectionParams
            (.vDict (dictMerge basicConnectionDefaultsEntries d)) = some q2 → q = q2) ∧
        (validateHttpConnectionParams
            (.vDict (dictMerge basicConnectionDefaultsEntries d)) = none →
          q = basicConnectionDefaults))) ∧
    (∀ s, dget c5Result.garden.connection_params "stomp" = some s →
      ∃ v, dget c5Garden.connection_params "stomp" = some v ∧
        validateStompConnectionParams v = some s) ∧
    (dget c5Garden.connection_params "stomp" = some (.vDict []) →
      dget c5Result.garden.connection_params "stomp" = none) :=
  claim_c5_http_reconciliation c5Garden c5Result (by decide) rfl rfl

/-! ### Claim C3 -/

def c3Garden : Garden := ⟨"childgarden", some "HTTP", [], "RUNNING", ⟨none⟩, [], []⟩

def c3Result : CleanResult :=
  ⟨⟨"childgarden", some "HTTP", [("http", basicConnectionDefaults)], "RUNNING",
    ⟨none⟩, [], []⟩,
   ["Used defaults for all values of http connection params for garden childgarden",
    "No stomp connection params provided for garden childgarden"]⟩

/-- C3 counterexample: the pair `(HTTP, {http: defaults})` is itself an output
of the reconciler (produced from an HTTP garden with no params), yet
reconciling it again logs the "No stomp connection params provided" note — a
non-empty note list, contradicting the claim that a second run produces no
notes. -/
theorem claim_c3_idempotent_notes_cex :
    cleanGardenConnectionParams c3Garden = some c3Result ∧
    cleanGardenConnectionParams c3Result.garden =
      some ⟨c3Result.garden,
        ["No stomp connection params provided for garden childgarden"]⟩ ∧
    ["No stomp connection params provided for garden childgarden"] ≠ ([] : List String) :=
  ⟨rfl, rfl, List.cons_ne_nil _ _⟩

/-- C3 (amended): connection-parameter reconciliation is idempotent on its
outputs in the sense that re-running it returns the identical garden — same
connection_type and same connection_params — but the second run's note list is
empty only when the result is LOCAL or retains a stomp entry; when the result
has no stomp entry (every demoted or stomp-free HTTP garden) the second run
still logs the single informational "No stomp connection params provided"
note. -/
theorem claim_c3_amended_idempotent (g : Garden) (r : CleanResult)
    (hnd : (g.connection_params.map Prod.fst).Nodup)
    (h : cleanGardenConnectionParams g = some r) :
    cleanGardenConnectionParams r.garden =
      some ⟨r.garden, recleanNotes r.garden.name r.garden.connection_type
        r.garden.connection_params⟩ :=
  cleanGarden_of_shape r.garden (cleanGarden_shape g r hnd h)

theorem claim_c3_amended_idempotent_witness :
    cleanGardenConnectionParams c3Result.garden =
      some ⟨c3Result.garden, recleanNotes c3Result.garden.name
        c3Result.garden.connection_type c3Result.garden.connection_params⟩ :=
  claim_c3_amended_idempotent c3Garden c3Result (by decide) rfl

end BeerGarden
